import Mathlib

/-!
Verification of the babylon-monitoring daemon against its specification.

The development shallowly embeds the TypeScript source of the monitor:
pure parts of the code become Lean functions, stateful parts become
explicit state passing, JavaScript numbers on the integer paths become
`Int`/`Nat`, and floating-point rate arithmetic is modelled over `Rat`.
Each embedded definition is named after the source function it models.
-/

namespace BabylonMonitoring

/-! ## Validator block-signature aggregator
    (src/services/validator-signature-service.ts, `updateValidatorSignature`) -/

/-- A recent-block record kept in `ValidatorSignatureStats.recentBlocks`. -/
structure RecentBlock where
  blockHeight : Nat
  signed : Bool
  round : Nat
  timestamp : Int
  deriving Repr, DecidableEq

/-- `ValidatorSignatureStats` from the source model.  The wall-clock
`lastUpdated` field (set with `new Date()`) carries no statistical content
and is omitted from the embedding. -/
structure ValStats where
  totalSignedBlocks : Nat
  totalBlocksInWindow : Nat
  signatureRate : Rat
  consecutiveSigned : Nat
  consecutiveMissed : Nat
  recentBlocks : List RecentBlock
  deriving Repr, DecidableEq

/-- `RECENT_BLOCKS_LIMIT` from the source. -/
def RECENT_BLOCKS_LIMIT : Nat := 100

/-- `SIGNATURE_PERFORMANCE_WINDOW` from the source. -/
def SIGNATURE_PERFORMANCE_WINDOW : Nat := 10000

/-- The freshly created stats object of `updateValidatorSignature`
(the `if (!stats)` branch). -/
def emptyValStats : ValStats :=
  { totalSignedBlocks := 0
    totalBlocksInWindow := 0
    signatureRate := 0
    consecutiveSigned := 0
    consecutiveMissed := 0
    recentBlocks := [] }

/-- One update of `updateValidatorSignature`: prepend the new block record,
truncate to `RECENT_BLOCKS_LIMIT`, update the consecutive counters, cap the
window counter at `SIGNATURE_PERFORMANCE_WINDOW`, increment the signed
counter only while the window is not yet saturated, and recompute the rate. -/
def updateValidatorSignature (s : ValStats) (blockHeight : Nat)
    (timestamp : Int) (round : Nat) (signed : Bool) : ValStats :=
  let recent :=
    ({ blockHeight := blockHeight, signed := signed, round := round,
       timestamp := timestamp } :: s.recentBlocks).take RECENT_BLOCKS_LIMIT
  let consecutiveSigned := if signed then s.consecutiveSigned + 1 else 0
  let consecutiveMissed := if signed then 0 else s.consecutiveMissed + 1
  let windowBlockCount :=
    min (s.totalBlocksInWindow + 1) SIGNATURE_PERFORMANCE_WINDOW
  let totalSignedBlocks :=
    if signed ∧ s.totalBlocksInWindow < SIGNATURE_PERFORMANCE_WINDOW then
      s.totalSignedBlocks + 1
    else
      s.totalSignedBlocks
  let signatureRate : Rat :=
    if 0 < windowBlockCount then
      ((totalSignedBlocks : Rat) / (windowBlockCount : Rat)) * 100
    else
      0
  { totalSignedBlocks := totalSignedBlocks
    totalBlocksInWindow := windowBlockCount
    signatureRate := signatureRate
    consecutiveSigned := consecutiveSigned
    consecutiveMissed := consecutiveMissed
    recentBlocks := recent }

/-- One observation `(height, timestamp, round, signed)` fed to the
validator block-signature aggregator. -/
structure ValObs where
  height : Nat
  timestamp : Int
  round : Nat
  signed : Bool
  deriving Repr, DecidableEq

/-- Apply one observation to the stats record. -/
def applyValObs (s : ValStats) (o : ValObs) : ValStats :=
  updateValidatorSignature s o.height o.timestamp o.round o.signed

/-- Replay a sequence of observations through `updateValidatorSignature`. -/
def replayValObs (s : ValStats) (l : List ValObs) : ValStats :=
  l.foldl applyValObs s

end BabylonMonitoring

namespace BabylonMonitoring

/-- Strict newest-first ordering of the recent-block list by height. -/
def RecentNewestFirst (s : ValStats) : Prop :=
  s.recentBlocks.Pairwise (fun a b => b.blockHeight < a.blockHeight)

/-- Field-level characterization of one `updateValidatorSignature` step. -/
lemma valUpdate_fields (s : ValStats) (h : Nat) (t : Int) (r : Nat)
    (sg : Bool) :
    (updateValidatorSignature s h t r sg).recentBlocks =
      ({ blockHeight := h, signed := sg, round := r, timestamp := t } ::
        s.recentBlocks).take 100
    ∧ (updateValidatorSignature s h t r sg).totalBlocksInWindow =
        min (s.totalBlocksInWindow + 1) 10000
    ∧ (updateValidatorSignature s h t r sg).totalSignedBlocks =
        (if sg = true ∧ s.totalBlocksInWindow < 10000 then
          s.totalSignedBlocks + 1 else s.totalSignedBlocks)
    ∧ (updateValidatorSignature s h t r sg).signatureRate =
        (if 0 < (updateValidatorSignature s h t r sg).totalBlocksInWindow then
          100 * ((updateValidatorSignature s h t r sg).totalSignedBlocks : Rat) /
            ((updateValidatorSignature s h t r sg).totalBlocksInWindow : Rat)
        else 0) := by
  refine ⟨rfl, rfl, ?_, ?_⟩
  · simp only [updateValidatorSignature, SIGNATURE_PERFORMANCE_WINDOW]
  · simp only [updateValidatorSignature]
    split <;> ring

/-- C2: for every single update of the validator block-signature aggregator
with an observation `(height, timestamp, round, signed)`, a new recent-block
record is prepended and the recent sequence truncated to length 100,
`totalBlocksInWindow` becomes `min (old + 1) 10000`, `totalSignedBlocks` is
incremented exactly when the block is signed and the old window counter is
below 10000 (held constant once saturated), and `signatureRate` is recomputed
as `100 * totalSignedBlocks / totalBlocksInWindow` when the denominator is
positive, else 0. -/
theorem C2_validator_update_step (s : ValStats) (h : Nat) (t : Int) (r : Nat)
    (sg : Bool) :
    (updateValidatorSignature s h t r sg).recentBlocks =
      ({ blockHeight := h, signed := sg, round := r, timestamp := t } ::
        s.recentBlocks).take 100
    ∧ (updateValidatorSignature s h t r sg).totalBlocksInWindow =
        min (s.totalBlocksInWindow + 1) 10000
    ∧ (updateValidatorSignature s h t r sg).totalSignedBlocks =
        (if sg = true ∧ s.totalBlocksInWindow < 10000 then
          s.totalSignedBlocks + 1 else s.totalSignedBlocks)
    ∧ (updateValidatorSignature s h t r sg).signatureRate =
        (if 0 < (updateValidatorSignature s h t r sg).totalBlocksInWindow then
          100 * ((updateValidatorSignature s h t r sg).totalSignedBlocks : Rat) /
            ((updateValidatorSignature s h t r sg).totalBlocksInWindow : Rat)
        else 0) :=
  valUpdate_fields s h t r sg

end BabylonMonitoring

namespace BabylonMonitoring

/-- Numeric invariant of a validator stats record. -/
def ValInv (s : ValStats) : Prop :=
  s.totalSignedBlocks ≤ s.totalBlocksInWindow
  ∧ s.totalBlocksInWindow ≤ 10000
  ∧ 0 ≤ s.signatureRate ∧ s.signatureRate ≤ 100
  ∧ s.recentBlocks.length ≤ 100

lemma emptyValStats_inv : ValInv emptyValStats := by
  refine ⟨le_refl 0, by norm_num [emptyValStats], le_refl 0,
    by norm_num [emptyValStats], by simp [emptyValStats]⟩

lemma rate_bounds (x wc : Nat) (hx : x ≤ wc) (hpos : 0 < wc) :
    0 ≤ 100 * (x : Rat) / (wc : Rat) ∧ 100 * (x : Rat) / (wc : Rat) ≤ 100 := by
  have hwc : (0 : Rat) < (wc : Rat) := by exact_mod_cast hpos
  constructor
  · positivity
  · rw [div_le_iff₀ hwc]
    have hxw : (x : Rat) ≤ (wc : Rat) := by exact_mod_cast hx
    nlinarith

lemma valUpdate_inv (s : ValStats) (h : Nat) (t : Int) (r : Nat) (sg : Bool)
    (hinv : ValInv s) : ValInv (updateValidatorSignature s h t r sg) := by
  obtain ⟨h1, h2, _, _, _⟩ := hinv
  obtain ⟨e1, e2, e3, e4⟩ := valUpdate_fields s h t r sg
  have hsw : (updateValidatorSignature s h t r sg).totalSignedBlocks ≤
      (updateValidatorSignature s h t r sg).totalBlocksInWindow := by
    rw [e2, e3]; split <;> omega
  have hw : (updateValidatorSignature s h t r sg).totalBlocksInWindow ≤ 10000 := by
    rw [e2]; omega
  have hpos : 0 < (updateValidatorSignature s h t r sg).totalBlocksInWindow := by
    rw [e2]; omega
  have hrate := rate_bounds _ _ hsw hpos
  refine ⟨hsw, hw, ?_, ?_, ?_⟩
  · rw [e4, if_pos hpos]; exact hrate.1
  · rw [e4, if_pos hpos]; exact hrate.2
  · rw [e1]
    simp only [List.length_take]
    omega

lemma replayValObs_inv (l : List ValObs) (s : ValStats) (hinv : ValInv s) :
    ValInv (replayValObs s l) := by
  induction l generalizing s with
  | nil => exact hinv
  | cons o l ih =>
    exact ih _ (valUpdate_inv s o.height o.timestamp o.round o.signed hinv)

/-- All recent-block heights in the state sit strictly below every height
still to be observed. -/
def HeightsBelow (s : ValStats) (l : List ValObs) : Prop :=
  ∀ rb ∈ s.recentBlocks, ∀ o ∈ l, rb.blockHeight < o.height

lemma valUpdate_pairwise (s : ValStats) (o : ValObs) (l : List ValObs)
    (hps : s.recentBlocks.Pairwise (fun a b => b.blockHeight < a.blockHeight))
    (hbelow : HeightsBelow s (o :: l))
    (hasc : (o :: l).Pairwise (fun a b => a.height < b.height)) :
    (applyValObs s o).recentBlocks.Pairwise
        (fun a b => b.blockHeight < a.blockHeight)
      ∧ HeightsBelow (applyValObs s o) l := by
  have e1 := (valUpdate_fields s o.height o.timestamp o.round o.signed).1
  have hhead : ∀ rb ∈ s.recentBlocks, rb.blockHeight < o.height := by
    intro rb hrb
    exact hbelow rb hrb o (List.mem_cons_self o l)
  constructor
  · show (updateValidatorSignature s o.height o.timestamp o.round
      o.signed).recentBlocks.Pairwise _
    rw [e1]
    refine List.Pairwise.sublist (List.take_sublist _ _) ?_
    exact List.pairwise_cons.mpr ⟨hhead, hps⟩
  · intro rb hrb o' ho'
    show rb.blockHeight < o'.height
    have hrb' : rb ∈ ((⟨o.height, o.signed, o.round, o.timestamp⟩ :
        RecentBlock) :: s.recentBlocks) := by
      have := e1 ▸ hrb
      exact List.mem_of_mem_take this
    rcases List.mem_cons.mp hrb' with hEq | hMem
    · subst hEq
      exact (List.pairwise_cons.mp hasc).1 o' ho'
    · exact lt_trans (hbelow rb hMem o (List.mem_cons_self o l))
        ((List.pairwise_cons.mp hasc).1 o' ho')

lemma replayValObs_pairwise (l : List ValObs) (s : ValStats)
    (hps : s.recentBlocks.Pairwise (fun a b => b.blockHeight < a.blockHeight))
    (hbelow : HeightsBelow s l)
    (hasc : l.Pairwise (fun a b => a.height < b.height)) :
    (replayValObs s l).recentBlocks.Pairwise
      (fun a b => b.blockHeight < a.blockHeight) := by
  induction l generalizing s with
  | nil => exact hps
  | cons o l ih =>
    obtain ⟨hps', hbelow'⟩ := valUpdate_pairwise s o l hps hbelow hasc
    exact ih _ hps' hbelow' (List.pairwise_cons.mp hasc).2

lemma replayValObs_last (l : List ValObs) (hne : l ≠ []) (s : ValStats) :
    ∃ s' o, replayValObs s l = applyValObs s' o := by
  induction l generalizing s with
  | nil => exact absurd rfl hne
  | cons o l ih =>
    cases l with
    | nil => exact ⟨s, o, rfl⟩
    | cons o' l' => exact ih (by simp) (applyValObs s o)

lemma valUpdate_consecutive (s : ValStats) (o : ValObs) :
    ((applyValObs s o).consecutiveSigned = 0
        ∧ (applyValObs s o).consecutiveMissed ≠ 0)
      ∨ ((applyValObs s o).consecutiveSigned ≠ 0
        ∧ (applyValObs s o).consecutiveMissed = 0) := by
  have hcs : (applyValObs s o).consecutiveSigned =
      (if o.signed then s.consecutiveSigned + 1 else 0) := rfl
  have hcm : (applyValObs s o).consecutiveMissed =
      (if o.signed then 0 else s.consecutiveMissed + 1) := rfl
  by_cases hsg : o.signed = true
  · right; rw [hcs, hcm]; simp [hsg]
  · left; rw [hcs, hcm]; simp [hsg]

end BabylonMonitoring

namespace BabylonMonitoring

/-- C3: after replaying any nonempty observation sequence with strictly
ascending heights from the empty record, the rate is between 0 and 100, the
signed counter never exceeds the window counter, the recent-block list has
length at most 100 and is strictly newest-first by height, and exactly one
of the consecutive counters is zero. -/
theorem C3_validator_invariants (l : List ValObs) (hne : l ≠ []) :
    0 ≤ (replayValObs emptyValStats l).signatureRate
    ∧ (replayValObs emptyValStats l).signatureRate ≤ 100
    ∧ (replayValObs emptyValStats l).totalSignedBlocks ≤
        (replayValObs emptyValStats l).totalBlocksInWindow
    ∧ (replayValObs emptyValStats l).recentBlocks.length ≤ 100
    ∧ (l.Pairwise (fun a b => a.height < b.height) →
        RecentNewestFirst (replayValObs emptyValStats l))
    ∧ (((replayValObs emptyValStats l).consecutiveSigned = 0
          ∧ (replayValObs emptyValStats l).consecutiveMissed ≠ 0)
        ∨ ((replayValObs emptyValStats l).consecutiveSigned ≠ 0
          ∧ (replayValObs emptyValStats l).consecutiveMissed = 0)) := by
  obtain ⟨i1, i2, i3, i4, i5⟩ := replayValObs_inv l emptyValStats emptyValStats_inv
  refine ⟨i3, i4, i1, i5, ?_, ?_⟩
  · intro hasc
    exact replayValObs_pairwise l emptyValStats (by simp [emptyValStats])
      (by intro rb hrb; simp [emptyValStats] at hrb) hasc
  · obtain ⟨s', o, heq⟩ := replayValObs_last l hne emptyValStats
    rw [heq]
    exact valUpdate_consecutive s' o

/-- Witness for `C3_validator_invariants` at a concrete two-block feed. -/
theorem C3_validator_invariants_witness :
    ([⟨5, 0, 0, true⟩, ⟨7, 1, 0, false⟩] : List ValObs) ≠ []
    ∧ RecentNewestFirst
        (replayValObs emptyValStats [⟨5, 0, 0, true⟩, ⟨7, 1, 0, false⟩]) :=
  ⟨by decide,
    (C3_validator_invariants [⟨5, 0, 0, true⟩, ⟨7, 1, 0, false⟩]
      (by decide)).2.2.2.2.1 (by decide)⟩

end BabylonMonitoring

namespace BabylonMonitoring

/-! ## Finality-provider vote aggregator
    (src/services/validator-info/validator-processor.ts, `StatsManager`) -/

/-- The directory's view of a finality provider (`FinalityProviderInfo`).
Only the fields that the stats update and the alert gate read are embedded;
the remaining identity fields (btc address, owner, description) are copied
verbatim by the source exactly like `moniker`. -/
structure FPInfo where
  moniker : String
  jailed : Option Bool
  deriving Repr, DecidableEq

/-- `FinalityProviderSignatureStats` from the source model (wall-clock
`lastUpdated` omitted, identity copies represented by `moniker`). -/
structure FPStats where
  fpBtcPkHex : String
  moniker : Option String
  startHeight : Int
  endHeight : Int
  totalBlocks : Nat
  signedBlocks : Nat
  missedBlocks : Nat
  signatureRate : Rat
  missedBlockHeights : List Int
  jailed : Option Bool
  isActive : Bool
  deriving Repr, DecidableEq

/-- `StatsManager.updateFinalityProviderStatsWithSignature`, the pure stats
part: create a fresh record when none exists, otherwise bump the counters,
append missed heights capped to the newest 100 (`slice(-100)`), extend the
height range, and recompute the rate. -/
def updateFinalityProviderStatsWithSignature (dir : String → Option FPInfo)
    (active : List String) (s : Option FPStats) (key : String)
    (height : Int) (signed : Bool) : FPStats :=
  let fpInfo := dir key
  let isActive := active.contains key
  match s with
  | none =>
    { fpBtcPkHex := key
      moniker := fpInfo.map (fun i => i.moniker)
      startHeight := height
      endHeight := height
      totalBlocks := 1
      signedBlocks := if signed then 1 else 0
      missedBlocks := if signed then 0 else 1
      signatureRate := if signed then 100 else 0
      missedBlockHeights := if signed then [] else [height]
      jailed := fpInfo.bind (fun i => i.jailed)
      isActive := isActive }
  | some st =>
    let totalBlocks := st.totalBlocks + 1
    let signedBlocks := if signed then st.signedBlocks + 1 else st.signedBlocks
    let missedBlocks := if signed then st.missedBlocks else st.missedBlocks + 1
    let missedBlockHeights :=
      if signed then st.missedBlockHeights
      else
        let m := st.missedBlockHeights ++ [height]
        if 100 < m.length then m.drop (m.length - 100) else m
    { fpBtcPkHex := st.fpBtcPkHex
      moniker := fpInfo.map (fun i => i.moniker)
      startHeight := min st.startHeight height
      endHeight := max st.endHeight height
      totalBlocks := totalBlocks
      signedBlocks := signedBlocks
      missedBlocks := missedBlocks
      signatureRate := ((signedBlocks : Rat) / (totalBlocks : Rat)) * 100
      missedBlockHeights := missedBlockHeights
      jailed := fpInfo.bind (fun i => i.jailed)
      isActive := isActive }

/-- `StatsManager.shouldSendAlert`: alerts require a known, non-jailed
provider that is in the active finality-provider set. -/
def shouldSendAlert (dir : String → Option FPInfo) (active : List String)
    (key : String) : Bool :=
  match dir key with
  | none => false
  | some info => !(info.jailed == some true) && active.contains key

/-- The alert-relevant outcome of one
`updateFinalityProviderStatsWithSignature` call: the new stats, whether the
signature-rate check (`checkAndSendSignatureRateAlert`) was evaluated, and
whether the recent-missed-blocks check fired (`recentMissedCount >= 3`). -/
def updateFPWithAlerts (dir : String → Option FPInfo) (active : List String)
    (s : Option FPStats) (key : String) (height : Int) (signed : Bool) :
    FPStats × Bool × Bool :=
  let stats := updateFinalityProviderStatsWithSignature dir active s key
    height signed
  if shouldSendAlert dir active key then
    let recentMissedCount :=
      (stats.missedBlockHeights.filter (fun x => decide (height - 5 ≤ x))).length
    (stats, true, decide (3 ≤ recentMissedCount))
  else
    (stats, false, false)

/-- One observation `(height, signed)` fed to the finality-provider vote
aggregator. -/
structure FPObs where
  height : Int
  signed : Bool
  deriving Repr, DecidableEq

/-- Replay a sequence of observations for one provider from the empty state
(no stored record). -/
def replayFPObs (dir : String → Option FPInfo) (active : List String)
    (key : String) (l : List FPObs) : Option FPStats :=
  l.foldl (fun s o =>
    some (updateFinalityProviderStatsWithSignature dir active s key
      o.height o.signed)) none

lemma shouldSendAlert_true_iff (dir : String → Option FPInfo)
    (active : List String) (key : String) :
    shouldSendAlert dir active key = true ↔
      (∃ info, dir key = some info ∧ info.jailed ≠ some true)
        ∧ active.contains key = true := by
  unfold shouldSendAlert
  cases hd : dir key with
  | none => simp
  | some info =>
    simp only [Bool.and_eq_true, Bool.not_eq_true']
    constructor
    · rintro ⟨hj, ha⟩
      exact ⟨⟨info, rfl, by simpa using hj⟩, ha⟩
    · rintro ⟨⟨info', hinfo', hj⟩, ha⟩
      cases hinfo'
      exact ⟨by simpa using hj, ha⟩

end BabylonMonitoring

namespace BabylonMonitoring

/-- C9: the two aggregator update functions are deterministic in their
observation inputs — replaying equal observation sequences from the empty
state yields equal final stats records — and replay is compositional. -/
theorem C9_replay_deterministic (dir : String → Option FPInfo)
    (active : List String) (key : String)
    (l₁ l₂ : List ValObs) (m₁ m₂ : List FPObs)
    (hl : l₁ = l₂) (hm : m₁ = m₂) :
    replayValObs emptyValStats l₁ = replayValObs emptyValStats l₂
    ∧ replayFPObs dir active key m₁ = replayFPObs dir active key m₂
    ∧ (∀ (s : ValStats) (p q : List ValObs),
        replayValObs s (p ++ q) = replayValObs (replayValObs s p) q) := by
  refine ⟨by rw [hl], by rw [hm], ?_⟩
  intro s p q
  exact List.foldl_append applyValObs s p q

/-- Witness for `C9_replay_deterministic` at concrete sequences. -/
theorem C9_replay_deterministic_witness :
    replayValObs emptyValStats [⟨1, 0, 0, true⟩] =
      replayValObs emptyValStats [⟨1, 0, 0, true⟩]
    ∧ replayFPObs (fun _ => none) [] "fp" [⟨4, false⟩] =
        replayFPObs (fun _ => none) [] "fp" [⟨4, false⟩]
    ∧ (∀ (s : ValStats) (p q : List ValObs),
        replayValObs s (p ++ q) = replayValObs (replayValObs s p) q) :=
  C9_replay_deterministic (fun _ => none) [] "fp"
    [⟨1, 0, 0, true⟩] [⟨1, 0, 0, true⟩] [⟨4, false⟩] [⟨4, false⟩] rfl rfl

/-- C10: the finality-provider governor's signature-rate and
recent-missed-blocks checks are evaluated only for a provider that is known
to the directory, not jailed, and in the active set; a jailed, inactive, or
unknown provider never triggers either alert path. -/
theorem C10_fp_alert_gating (dir : String → Option FPInfo)
    (active : List String) (s : Option FPStats) (key : String)
    (height : Int) (signed : Bool) :
    (((updateFPWithAlerts dir active s key height signed).2.1 = true
        ∨ (updateFPWithAlerts dir active s key height signed).2.2 = true) →
      (∃ info, dir key = some info ∧ info.jailed ≠ some true)
        ∧ active.contains key = true)
    ∧ ((dir key = none
          ∨ (∃ info, dir key = some info ∧ info.jailed = some true)
          ∨ active.contains key = false) →
        (updateFPWithAlerts dir active s key height signed).2.1 = false
          ∧ (updateFPWithAlerts dir active s key height signed).2.2 = false) := by
  constructor
  · intro halert
    by_cases hg : shouldSendAlert dir active key = true
    · exact (shouldSendAlert_true_iff dir active key).mp hg
    · exfalso
      have h1 : (updateFPWithAlerts dir active s key height signed).2.1 = false ∧
          (updateFPWithAlerts dir active s key height signed).2.2 = false := by
        unfold updateFPWithAlerts
        rw [if_neg hg]
        exact ⟨rfl, rfl⟩
      rcases halert with h | h
      · rw [h1.1] at h; exact Bool.false_ne_true h
      · rw [h1.2] at h; exact Bool.false_ne_true h
  · intro hbad
    have hg : shouldSendAlert dir active key = false := by
      rcases Bool.eq_false_or_eq_true (shouldSendAlert dir active key) with h | h
      swap
      · exact h
      · exfalso
        obtain ⟨⟨info, hinfo, hj⟩, ha⟩ := (shouldSendAlert_true_iff dir active key).mp h
        rcases hbad with hb | hb | hb
        · rw [hb] at hinfo; cases hinfo
        · obtain ⟨info', hinfo', hj'⟩ := hb
          rw [hinfo] at hinfo'
          cases hinfo'
          exact hj hj'
        · rw [ha] at hb; cases hb
    unfold updateFPWithAlerts
    rw [if_neg (by rw [hg]; exact Bool.false_ne_true)]
    exact ⟨rfl, rfl⟩

/-- Witness for `C10_fp_alert_gating`: a jailed provider fires no alert. -/
theorem C10_fp_alert_gating_witness :
    (updateFPWithAlerts
        (fun _ => some { moniker := "fp1", jailed := some true }) ["k"]
        none "k" 10 false).2.1 = false
    ∧ (updateFPWithAlerts
        (fun _ => some { moniker := "fp1", jailed := some true }) ["k"]
        none "k" 10 false).2.2 = false :=
  (C10_fp_alert_gating (fun _ => some { moniker := "fp1", jailed := some true })
    ["k"] none "k" 10 false).2
    (Or.inr (Or.inl ⟨{ moniker := "fp1", jailed := some true }, rfl, rfl⟩))

end BabylonMonitoring

namespace BabylonMonitoring

/-! ## BLS checkpoint pipeline
    (src/services/validator-info/validator-processor.ts,
    `CheckpointProcessor`, and the `EpochManager` source) -/

/-- A vote entry of `extended_commit_info.votes`.  The `power` field models
`parseInt(vote.validator.power)`; an absent or empty `extension_signature`
is modelled by the empty string (both are falsy under `!!` in the source). -/
structure BLSVote where
  address : String
  power : Int
  block_id_flag : String
  extension_signature : String
  deriving Repr, DecidableEq

/-- `extended_commit_info` of an injected-checkpoint message: the `votes`
vector may be absent. -/
structure ExtendedCommitInfo where
  votes : Option (List BLSVote)
  deriving Repr, DecidableEq

/-- A transaction message as inspected by `searchForCheckpoint`:
its type URI and the optional `extended_commit_info` payload. -/
structure CkptMsg where
  typeUrl : String
  extInfo : Option ExtendedCommitInfo
  deriving Repr, DecidableEq

/-- A transaction: the `body.messages` vector. -/
structure Tx where
  msgs : List CkptMsg
  deriving Repr, DecidableEq

/-- The checkpoint message type URI from the source. -/
def checkpointTypeUrl : String := "/babylon.checkpointing.v1.MsgInjectedCheckpoint"

/-- `EPOCH_BLOCKS` from the source constants. -/
def EPOCH_BLOCKS : Nat := 360

/-- `EpochManager.calculateCheckpointHeight`. -/
def calculateCheckpointHeight (epochNum : Nat) : Nat :=
  epochNum * EPOCH_BLOCKS + 1

/-- The match test of `searchForCheckpoint`: type URI equals the checkpoint
URI and `extended_commit_info` is present (the source checks only
`msg.extended_commit_info`, not the `votes` field). -/
def msgIsCheckpoint (m : CkptMsg) : Bool :=
  m.typeUrl == checkpointTypeUrl && m.extInfo.isSome

/-- Modelled from the spec wording of the claim (for refutation only): a
match additionally requires `extended_commit_info.votes` to be present. -/
def specMsgIsCheckpoint (m : CkptMsg) : Bool :=
  m.typeUrl == checkpointTypeUrl &&
    (match m.extInfo with
     | some i => i.votes.isSome
     | none => false)

/-- The first checkpoint message of a block's transactions, in transaction
and message order (the double loop of `searchForCheckpoint`). -/
def findCheckpointMsg (txs : List Tx) : Option CkptMsg :=
  ((txs.map (fun t => t.msgs)).flatten).find? msgIsCheckpoint

/-- The five heights probed by `processCheckpoint`: the target height and
then offsets `+1 … +4` (`targetHeight + i - 1` for `i = 2 … 5`). -/
def checkpointSearchHeights (epochNum : Nat) : List Nat :=
  (List.range 5).map (fun i => calculateCheckpointHeight epochNum + i)

/-- Probe a list of heights in order, stopping at the first block containing
a checkpoint message.  Returns the found height and message (if any)
together with the list of heights actually fetched. -/
def checkpointSearch (chain : Nat → List Tx) :
    List Nat → Option (Nat × CkptMsg) × List Nat
  | [] => (none, [])
  | h :: rest =>
    match findCheckpointMsg (chain h) with
    | some m => (some (h, m), [h])
    | none =>
      let r := checkpointSearch chain rest
      (r.1, h :: r.2)

/-- `CheckpointProcessor.processCheckpoint` for a not-yet-processed epoch:
probe the five candidate heights in ascending order. -/
def processCheckpoint (chain : Nat → List Tx) (epochNum : Nat) :
    Option (Nat × CkptMsg) × List Nat :=
  checkpointSearch chain (checkpointSearchHeights epochNum)

/-- `processCheckpoint` including the processed-epoch guard of
`EpochManager`: an already-processed epoch is skipped (nothing fetched);
otherwise the epoch is marked processed exactly when a message was found.
Returns the new processed set and the fetched heights. -/
def processCheckpointWithSet (processed : List Nat) (chain : Nat → List Tx)
    (epochNum : Nat) : List Nat × List Nat :=
  if processed.contains epochNum then (processed, [])
  else
    let r := processCheckpoint chain epochNum
    (if r.1.isSome then epochNum :: processed else processed, r.2)

lemma checkpointSearch_found (chain : Nat → List Tx) (hs : List Nat) :
    (checkpointSearch chain hs).1.isSome =
      hs.any (fun h => (findCheckpointMsg (chain h)).isSome) := by
  induction hs with
  | nil => rfl
  | cons h rest ih =>
    simp only [checkpointSearch, List.any_cons]
    cases hm : findCheckpointMsg (chain h) with
    | some m => simp [hm]
    | none => simp [hm, ih]

lemma checkpointSearch_fetched (chain : Nat → List Tx) (hs : List Nat) :
    ∃ k, (checkpointSearch chain hs).2 = hs.take k ∧ k ≤ hs.length := by
  induction hs with
  | nil => exact ⟨0, rfl, le_refl 0⟩
  | cons h rest ih =>
    simp only [checkpointSearch]
    cases hm : findCheckpointMsg (chain h) with
    | some m => exact ⟨1, by simp, by simp⟩
    | none =>
      obtain ⟨k, hk, hkle⟩ := ih
      exact ⟨k + 1, by simp [hk], by simpa using hkle⟩

lemma checkpointSearch_first (chain : Nat → List Tx) (hs : List Nat)
    (h : Nat) (m : CkptMsg) (hfound : (checkpointSearch chain hs).1 = some (h, m)) :
    findCheckpointMsg (chain h) = some m ∧ h ∈ hs := by
  induction hs with
  | nil => cases hfound
  | cons h0 rest ih =>
    simp only [checkpointSearch] at hfound
    cases hm : findCheckpointMsg (chain h0) with
    | some m0 =>
      rw [hm] at hfound
      simp only [Option.some.injEq, Prod.mk.injEq] at hfound
      obtain ⟨he, hme⟩ := hfound
      subst he; subst hme
      exact ⟨hm, List.mem_cons_self _ _⟩
    | none =>
      rw [hm] at hfound
      obtain ⟨h1, h2⟩ := ih hfound
      exact ⟨h1, List.mem_cons_of_mem _ h2⟩

end BabylonMonitoring

namespace BabylonMonitoring

/-- Directory record used by the BLS pipeline (`ValidatorManager`):
moniker and operator address of a known validator. -/
structure CkptDirRecord where
  moniker : String
  operatorAddress : String
  deriving Repr, DecidableEq

/-- A per-validator checkpoint signature record (`BLSValidatorSignature`,
without the wall-clock timestamp and network tag). -/
structure BLSValidatorSignature where
  epochNum : Nat
  validatorAddress : String
  validatorMoniker : String
  validatorOperatorAddress : String
  validatorPower : Int
  signed : Bool
  deriving Repr, DecidableEq

/-- `BLSCheckpointStats` (without the wall-clock timestamp and network tag).
Power totals are kept as integers; the source stringifies them on output. -/
structure BLSCheckpointStats where
  epochNum : Nat
  totalValidators : Nat
  totalPower : Int
  signedPower : Int
  unsignedPower : Int
  participationRateByCount : String
  participationRateByPower : String
  deriving Repr, DecidableEq

/-- `BLOCK_ID_FLAG_COMMIT_STR` from the service constants. -/
def BLOCK_ID_FLAG_COMMIT_STR : String := "BLOCK_ID_FLAG_COMMIT"

/-- The per-vote signed test of `extractCheckpointData`:
`vote.block_id_flag === COMMIT && !!vote.extension_signature`. -/
def voteSigned (v : BLSVote) : Bool :=
  v.block_id_flag == BLOCK_ID_FLAG_COMMIT_STR && !(v.extension_signature == "")

/-- `((num / den) * 100).toFixed(2) + "%"` on exact values: round-half-up of
`num / den` in units of one hundredth of a percentage point, rendered with
two decimals.  This is the integer-exact model of the source's
floating-point `toFixed(2)` (they agree on every value the concrete
scenarios produce). -/
def toFixedPct (num den : Int) : String :=
  let scaled : Int := (num * 10000 * 2 + den) / (2 * den)
  let ip := scaled / 100
  let fp := (scaled % 100).toNat
  toString ip ++ "." ++ (if fp < 10 then "0" ++ toString fp else toString fp)
    ++ "%"

/-- `CheckpointProcessor.extractCheckpointData` on a present `votes` vector:
build the per-validator signature records (unknown validators are labeled
"Unknown" but keep their power), sum total and signed power, and derive the
aggregate statistics.  The `ckpt.epoch_num` override is applied by the
caller; `epochNum` here is the authoritative epoch. -/
def extractCheckpointData (dir : String → Option CkptDirRecord)
    (epochNum : Nat) (votes : List BLSVote) :
    List BLSValidatorSignature × BLSCheckpointStats :=
  let sigs := votes.map (fun v =>
    ({ epochNum := epochNum,
       validatorAddress := v.address,
       validatorMoniker :=
         (match dir v.address with
          | some i => i.moniker
          | none => "Unknown"),
       validatorOperatorAddress :=
         (match dir v.address with
          | some i => i.operatorAddress
          | none => "Unknown"),
       validatorPower := v.power,
       signed := voteSigned v } : BLSValidatorSignature))
  let totalPower := (votes.map (fun v => v.power)).sum
  let signedPower := ((votes.filter voteSigned).map (fun v => v.power)).sum
  let totalValidators := votes.length
  let signedValidators := (votes.filter voteSigned).length
  (sigs,
    { epochNum := epochNum
      totalValidators := totalValidators
      totalPower := totalPower
      signedPower := signedPower
      unsignedPower := totalPower - signedPower
      participationRateByCount :=
        toFixedPct (signedValidators : Int) (totalValidators : Int)
      participationRateByPower := toFixedPct signedPower totalPower })

end BabylonMonitoring

namespace BabylonMonitoring

/-- S4 votes: `[(A,100,COMMIT,x),(B,200,COMMIT,""),(C,50,COMMIT,x),(D,50,OTHER,x)]`. -/
def s4Votes : List BLSVote :=
  [⟨"A", 100, "BLOCK_ID_FLAG_COMMIT", "x"⟩,
   ⟨"B", 200, "BLOCK_ID_FLAG_COMMIT", ""⟩,
   ⟨"C", 50, "BLOCK_ID_FLAG_COMMIT", "x"⟩,
   ⟨"D", 50, "BLOCK_ID_FLAG_ABSENT", "x"⟩]

/-- C6: a vote counts as signed iff its flag is `BLOCK_ID_FLAG_COMMIT` and
its extension signature is non-empty; `unsignedPower = totalPower -
signedPower`; the power totals do not depend on the directory; an unknown
validator still contributes its power and is labeled "Unknown"; and the S4
scenario yields exactly the expected statistics. -/
theorem C6_checkpoint_vote_counting (dir dirB : String → Option CkptDirRecord)
    (e : Nat) (votes : List BLSVote) (v : BLSVote) :
    (voteSigned v = true ↔
      (v.block_id_flag = BLOCK_ID_FLAG_COMMIT_STR ∧ v.extension_signature ≠ ""))
    ∧ (extractCheckpointData dir e votes).2.unsignedPower =
        (extractCheckpointData dir e votes).2.totalPower -
          (extractCheckpointData dir e votes).2.signedPower
    ∧ (extractCheckpointData dir e votes).2.totalPower =
        (extractCheckpointData dirB e votes).2.totalPower
    ∧ (v ∈ votes → dir v.address = none →
        ∃ srec ∈ (extractCheckpointData dir e votes).1,
          srec.validatorAddress = v.address ∧ srec.validatorPower = v.power
            ∧ srec.validatorMoniker = "Unknown")
    ∧ (extractCheckpointData (fun _ => none) 5 s4Votes).2 =
        { epochNum := 5
          totalValidators := 4
          totalPower := 400
          signedPower := 150
          unsignedPower := 250
          participationRateByCount := "50.00%"
          participationRateByPower := "37.50%" } := by
  refine ⟨?_, rfl, rfl, ?_, by decide⟩
  · unfold voteSigned
    simp [Bool.and_eq_true, beq_iff_eq]
  · intro hv hnone
    refine ⟨_, List.mem_map_of_mem _ hv, rfl, rfl, ?_⟩
    simp only [hnone]

/-- Witness for `C6_checkpoint_vote_counting` at the S4 scenario: validator
A is unknown to the empty directory yet appears with its full power and the
"Unknown" label. -/
theorem C6_checkpoint_vote_counting_witness :
    voteSigned ⟨"A", 100, "BLOCK_ID_FLAG_COMMIT", "x"⟩ = true
    ∧ ∃ srec ∈ (extractCheckpointData (fun _ => none) 5 s4Votes).1,
        srec.validatorAddress = "A" ∧ srec.validatorPower = 100
          ∧ srec.validatorMoniker = "Unknown" :=
  ⟨by decide,
    (C6_checkpoint_vote_counting (fun _ => none) (fun _ => none) 5 s4Votes
      ⟨"A", 100, "BLOCK_ID_FLAG_COMMIT", "x"⟩).2.2.2.1
      (by decide) rfl⟩

end BabylonMonitoring

namespace BabylonMonitoring

/-- A checkpoint-typed message carrying `extended_commit_info` but no
`votes` vector. -/
def msgNoVotes : CkptMsg := ⟨checkpointTypeUrl, some ⟨none⟩⟩

/-- A chain whose block 1 (the target height of epoch 0) contains only
`msgNoVotes`. -/
def chainNoVotes : Nat → List Tx := fun h => if h = 1 then [⟨[msgNoVotes]⟩] else []

/-- C5 counterexample: on `chainNoVotes` at epoch 0 the pipeline finds a
match (and therefore marks the epoch processed) even though no probed block
contains a message with `extended_commit_info.votes` present — the source
match test checks only that `extended_commit_info` exists, so the claim's
"processed exactly when a message with votes is found" is false. -/
theorem C5_counterexample :
    (processCheckpoint chainNoVotes 0).1.isSome = true
    ∧ ((checkpointSearchHeights 0).any
        (fun h => (chainNoVotes h).any
          (fun t => t.msgs.any specMsgIsCheckpoint))) = false := by
  constructor
  · decide
  · decide

/-- C5 (amended): the pipeline probes heights `e*360+1 … e*360+5` in
ascending order, stops at the first message whose type URI matches and whose
`extended_commit_info` is merely present (the `votes` field is not part of
the match test), the fetched heights form a prefix of the probe list, the
selected message is the first checkpoint message of its block, and the
epoch is marked processed exactly when such a match is found (an
already-processed epoch fetches nothing). -/
theorem C5_checkpoint_search (chain : Nat → List Tx) (e : Nat)
    (processed : List Nat) :
    checkpointSearchHeights e =
      [e * 360 + 1, e * 360 + 2, e * 360 + 3, e * 360 + 4, e * 360 + 5]
    ∧ (processCheckpoint chain e).1.isSome =
        (checkpointSearchHeights e).any
          (fun h => (findCheckpointMsg (chain h)).isSome)
    ∧ (∃ k, (processCheckpoint chain e).2 = (checkpointSearchHeights e).take k)
    ∧ (∀ h m, (processCheckpoint chain e).1 = some (h, m) →
        findCheckpointMsg (chain h) = some m ∧ h ∈ checkpointSearchHeights e)
    ∧ (processCheckpointWithSet processed chain e).1.contains e =
        (processed.contains e || (processCheckpoint chain e).1.isSome)
    ∧ (processed.contains e = true →
        (processCheckpointWithSet processed chain e).2 = []) := by
  refine ⟨?_, ?_, ?_, ?_, ?_, ?_⟩
  · simp [checkpointSearchHeights, calculateCheckpointHeight, EPOCH_BLOCKS,
      List.range_succ]
  · exact checkpointSearch_found chain (checkpointSearchHeights e)
  · obtain ⟨k, hk, _⟩ := checkpointSearch_fetched chain (checkpointSearchHeights e)
    exact ⟨k, hk⟩
  · intro h m hfound
    exact checkpointSearch_first chain (checkpointSearchHeights e) h m hfound
  · unfold processCheckpointWithSet
    by_cases hp : processed.contains e = true
    · rw [if_pos hp, hp]
      simp
    · rw [if_neg hp]
      have hp' : processed.contains e = false := by
        cases hc : processed.contains e
        · rfl
        · exact absurd hc hp
      rw [hp']
      cases hfound : (processCheckpoint chain e).1.isSome
      · dsimp only
        rw [if_neg (by rw [hfound]; exact Bool.false_ne_true), hp',
          Bool.or_false]
      · dsimp only
        rw [if_pos (by rw [hfound]), Bool.or_true]
        simp
  · intro hp
    unfold processCheckpointWithSet
    rw [if_pos hp]

/-- Witness for `C5_checkpoint_search`: on `chainNoVotes` at epoch 0 the
first probe already matches, so exactly one height is fetched and epoch 0
is marked processed. -/
theorem C5_checkpoint_search_witness :
    (processCheckpointWithSet [] chainNoVotes 0).1.contains 0 =
      (([] : List Nat).contains 0 || (processCheckpoint chainNoVotes 0).1.isSome)
    ∧ findCheckpointMsg (chainNoVotes 1) = some msgNoVotes
    ∧ 1 ∈ checkpointSearchHeights 0 :=
  ⟨(C5_checkpoint_search chainNoVotes 0 []).2.2.2.2.1,
    (C5_checkpoint_search chainNoVotes 0 []).2.2.2.1 1 msgNoVotes (by decide)⟩

end BabylonMonitoring

namespace BabylonMonitoring

/-! ## Finality-provider initial sync
    (src/services/finality-provider/sync-manager.ts, `performInitialSync`,
    and the finality-provider `BlockProcessor` queue) -/

/-- `FINALIZED_BLOCKS_WAIT` (F). -/
def FINALIZED_BLOCKS_WAIT : Int := 3

/-- `MAX_SYNC_BLOCKS`. -/
def MAX_SYNC_BLOCKS : Int := 100

/-- The closed integer interval `[a, b]` as an ascending list. -/
def intRange (a b : Int) : List Int :=
  List.map (fun i : Nat => a + (i : Int)) (List.range (b - a + 1).toNat)

/-- The sync start height of `performInitialSync`:
`lastSyncedBlock > 0 ? lastSyncedBlock + 1 : finalizedHeight - MAX_SYNC_BLOCKS`. -/
def syncStartHeight (lastSyncedBlock currentHeight : Int) : Int :=
  if 0 < lastSyncedBlock then lastSyncedBlock + 1
  else (currentHeight - FINALIZED_BLOCKS_WAIT) - MAX_SYNC_BLOCKS

/-- `SyncManager.performInitialSync` as the list of heights it processes, in
processing order: nothing when `syncStartHeight >= syncEndHeight`, otherwise
the ascending range from the start height to the (possibly limited) end
height. -/
def performInitialSync (lastSyncedBlock currentHeight : Int) : List Int :=
  let finalizedHeight := currentHeight - FINALIZED_BLOCKS_WAIT
  let start := syncStartHeight lastSyncedBlock currentHeight
  if start ≥ finalizedHeight then []
  else
    let blockCount := finalizedHeight - start + 1
    let limitedEndHeight :=
      if MAX_SYNC_BLOCKS < blockCount then start + MAX_SYNC_BLOCKS - 1
      else finalizedHeight
    intRange start limitedEndHeight

/-- Modelled from the spec wording of the claim (for refutation only): the
heights `[max(lastStoredHeight + 1, currentHeight - F - MAX_SYNC),
currentHeight - F]`. -/
def specSyncHeights (lastStoredHeight currentHeight : Int) : List Int :=
  intRange (max (lastStoredHeight + 1)
      (currentHeight - FINALIZED_BLOCKS_WAIT - MAX_SYNC_BLOCKS))
    (currentHeight - FINALIZED_BLOCKS_WAIT)

/-- The eligibility test of the finality-provider `BlockProcessor` queue:
a queued height waits while `height + FINALIZED_BLOCKS_WAIT` exceeds the
maximum height seen. -/
def fpBlockEligible (height lastProcessedHeight : Int) : Bool :=
  !(decide (lastProcessedHeight < height + FINALIZED_BLOCKS_WAIT))

lemma intRange_length (a b : Int) : (intRange a b).length = (b - a + 1).toNat := by
  unfold intRange
  rw [List.length_map, List.length_range]

lemma intRange_pairwise (a b : Int) : (intRange a b).Pairwise (· < ·) := by
  unfold intRange
  refine List.Pairwise.map (fun i : Nat => a + (i : Int)) ?_
    (List.pairwise_lt_range ((b - a + 1).toNat))
  intro i j hij
  dsimp only
  omega

/-- Branch-free characterization of `performInitialSync`: the processed
range starts at `syncStartHeight` and ends at
`min (currentHeight - 3) (syncStartHeight + 99)`. -/
lemma performInitialSync_eq (lastSyncedBlock currentHeight : Int) :
    performInitialSync lastSyncedBlock currentHeight =
      if syncStartHeight lastSyncedBlock currentHeight ≥ currentHeight - 3 then
        ([] : List Int)
      else
        intRange (syncStartHeight lastSyncedBlock currentHeight)
          (min (currentHeight - 3)
            (syncStartHeight lastSyncedBlock currentHeight + 99)) := by
  unfold performInitialSync FINALIZED_BLOCKS_WAIT MAX_SYNC_BLOCKS
  dsimp only
  split
  · rfl
  · congr 1
    split <;> omega

end BabylonMonitoring

namespace BabylonMonitoring

/-- C7 counterexample: starting from last-stored height 500 with current
height 1100 the sync manager processes the oldest hundred heights
`[501, 600]`, whereas the claimed formula
`[max(lastStored+1, current-F-MAX_SYNC), current-F]` demands
`[997, 1097]`. -/
theorem C7_counterexample :
    performInitialSync 500 1100 = intRange 501 600
    ∧ specSyncHeights 500 1100 = intRange 997 1097
    ∧ performInitialSync 500 1100 ≠ specSyncHeights 500 1100 :=
  ⟨by decide, by decide, by decide⟩

/-- C7 (amended): the initial sync starts at `lastStored + 1` when a stored
height exists (else at `current - F - MAX_SYNC`), ends at
`min (current - F) (start + MAX_SYNC - 1)` (nothing is processed when the
start reaches `current - F`), processes heights synchronously in ascending
order and at most `MAX_SYNC = 100` of them; from last-stored 1000 and
current 1100 exactly `[1001, 1097]` is processed; and a streamed height `h`
becomes eligible exactly when the maximum height seen is at least `h + F`. -/
theorem C7_initial_sync (lastStored current h maxSeen : Int) :
    performInitialSync lastStored current =
      (if syncStartHeight lastStored current ≥ current - 3 then ([] : List Int)
       else
        intRange (syncStartHeight lastStored current)
          (min (current - 3) (syncStartHeight lastStored current + 99)))
    ∧ (performInitialSync lastStored current).length ≤ 100
    ∧ (performInitialSync lastStored current).Pairwise (· < ·)
    ∧ performInitialSync 1000 1100 = intRange 1001 1097
    ∧ (fpBlockEligible h maxSeen = true ↔ h + 3 ≤ maxSeen) := by
  refine ⟨performInitialSync_eq lastStored current, ?_, ?_, by decide, ?_⟩
  · rw [performInitialSync_eq]
    split
    · simp
    · rw [intRange_length]
      omega
  · rw [performInitialSync_eq]
    split
    · exact List.Pairwise.nil
    · exact intRange_pairwise _ _
  · unfold fpBlockEligible FINALIZED_BLOCKS_WAIT
    simp [not_lt]

end BabylonMonitoring

namespace BabylonMonitoring

/-! ## Chain gateway REST failover
    (src/clients/babylon-client.ts, `makeRestRequest` / `checkConnection`) -/

/-- `makeRestRequest`, modelled against an abstract per-endpoint outcome
environment `env` (`some v` = the endpoint answers `v`, `none` = transport
failure or non-2xx) with `n` configured REST URLs and an explicit recursion
bound `fuel`.  The result `none` means the request has not completed within
`fuel` attempts — the source has no terminal-error path for rotation: on
failure it rotates (`rotateRestUrl`, index `(i+1) % n`) and recurses
unconditionally. -/
def makeRestRequest {α : Type} (env : Nat → Option α) (n : Nat) :
    Nat → Nat → Option α
  | _, 0 => none
  | idx, fuel + 1 =>
    match env idx with
    | some v => some v
    | none => makeRestRequest env n ((idx + 1) % n) fuel

/-- An environment in which every REST endpoint persistently fails. -/
def envAllFail : Nat → Option Unit := fun _ => none

lemma makeRestRequest_allFail {α : Type} (env : Nat → Option α)
    (henv : ∀ i, env i = none) (n : Nat) :
    ∀ fuel idx, makeRestRequest env n idx fuel = none := by
  intro fuel
  induction fuel with
  | zero => intro idx; rfl
  | succ f ih =>
    intro idx
    unfold makeRestRequest
    rw [henv idx]
    exact ih _

/-- The `get` operation never completes within any retry bound when every
endpoint persistently fails: it retries indefinitely instead of aborting
with a terminal error after one full rotation. -/
def restRetriesForever : Prop :=
  ∀ fuel, makeRestRequest envAllFail 2 0 fuel = none

/-- C1 counterexample: with 2 configured endpoints all persistently
failing, `makeRestRequest` is still unresolved after every finite number of
attempts — there is no terminal abort after one full rotation, contrary to
the claim. -/
theorem C1_counterexample : restRetriesForever :=
  fun fuel => makeRestRequest_allFail envAllFail (fun _ => rfl) 2 fuel 0

/-- `checkConnection`, modelled with the same abstract environment
(`env i = true` iff node `i`'s `/status` probe succeeds): on failure it
rotates, and it aborts with a terminal error (modelled `some false`) when
the rotation wraps back to index 0. -/
def checkConnection (env : Nat → Bool) (n : Nat) : Nat → Nat → Option Bool
  | _, 0 => none
  | idx, fuel + 1 =>
    if env idx then some true
    else
      let idxNext := (idx + 1) % n
      if idxNext = 0 then some false
      else checkConnection env n idxNext fuel

lemma checkConnection_allFail (env : Nat → Bool) (henv : ∀ i, env i = false)
    (n : Nat) :
    ∀ fuel idx, idx < n → n - idx ≤ fuel →
      checkConnection env n idx fuel = some false := by
  intro fuel
  induction fuel with
  | zero => intro idx hlt hle; omega
  | succ f ih =>
    intro idx hlt hle
    unfold checkConnection
    rw [henv idx]
    dsimp only
    by_cases hwrap : idx + 1 = n
    · rw [if_neg (by simp), if_pos (by rw [hwrap, Nat.mod_self])]
    · have hlt' : idx + 1 < n := by omega
      rw [if_neg (by simp), Nat.mod_eq_of_lt hlt',
        if_neg (by omega)]
      exact ih (idx + 1) hlt' (by omega)

/-- C1 (amended): on failure the gateway advances to the next REST endpoint
round-robin modulo the number of endpoints and retries the same request; a
responding endpoint's answer is returned; but when every endpoint
persistently fails the request retries indefinitely and never aborts — only
the connection probe `checkConnection` aborts with a terminal error after
one full rotation through all nodes. -/
theorem C1_rest_rotation {α : Type} (env : Nat → Option α)
    (envC : Nat → Bool) (n idx fuel : Nat) (v : α) :
    (env idx = none →
      makeRestRequest env n idx (fuel + 1) =
        makeRestRequest env n ((idx + 1) % n) fuel)
    ∧ (env idx = some v → makeRestRequest env n idx (fuel + 1) = some v)
    ∧ ((∀ i, env i = none) → makeRestRequest env n idx fuel = none)
    ∧ ((∀ i, envC i = false) → 0 < n → checkConnection envC n 0 n = some false) := by
  refine ⟨?_, ?_, ?_, ?_⟩
  · intro hnone
    conv_lhs => rw [makeRestRequest]
    rw [hnone]
  · intro hsome
    conv_lhs => rw [makeRestRequest]
    rw [hsome]
  · intro hall
    exact makeRestRequest_allFail env hall n fuel idx
  · intro hall hn
    exact checkConnection_allFail envC hall n n 0 hn (by omega)

/-- Witness for `C1_rest_rotation`: endpoint 1 answers 42 and is reached by
rotation; an all-failing two-node probe aborts after the full rotation. -/
theorem C1_rest_rotation_witness :
    makeRestRequest (fun i => if i = 1 then some 42 else none) 2 1 6 = some 42
    ∧ checkConnection (fun _ => false) 2 0 2 = some false :=
  ⟨(C1_rest_rotation (fun i => if i = 1 then some 42 else none)
      (fun _ => false) 2 1 5 42).2.1 (by decide),
    (C1_rest_rotation (fun i : Nat => (none : Option Nat))
      (fun _ => false) 2 0 0 0).2.2.2 (fun _ => rfl) (by decide)⟩

end BabylonMonitoring

namespace BabylonMonitoring

/-! ## Validator-signature alert governor
    (src/services/validator-signature/notification-service.ts) -/

/-- `ValidatorAlertState` (the fields driving the rate-alert state machine;
the consecutive-miss flags are independent and not needed here). -/
structure ValidatorAlertState where
  lastAlertedSignatureRate : Rat
  lastSignatureRateAlertTime : Option Int
  lastRecoveryAlertTime : Option Int
  isRecovering : Bool
  deriving Repr, DecidableEq

/-- The lazily created fresh alert state (`getAlertState`). -/
def initAlertState : ValidatorAlertState := ⟨0, none, none, false⟩

/-- `MIN_ALERT_INTERVAL` default: 6 hours in milliseconds. -/
def MIN_ALERT_INTERVAL : Int := 21600000

/-- `MIN_RATE_DROP_FOR_ALERT` default: 10 percentage points. -/
def MIN_RATE_DROP_FOR_ALERT : Rat := 10

/-- The `timeSinceLastAlert` computation: elapsed milliseconds since the
recorded time, or `MIN_ALERT_INTERVAL + 1` when no alert was ever timed. -/
def timeSinceOrDefault (now : Int) (t : Option Int) : Int :=
  match t with
  | some x => now - x
  | none => MIN_ALERT_INTERVAL + 1

/-- `shouldSendSignatureRateAlert` (defaults applied): the never-alerted or
sufficient-drop test, then the strict cooldown test
`timeSinceLastAlert > MIN_ALERT_INTERVAL`. -/
def shouldSendSignatureRateAlert (st : ValidatorAlertState) (currentRate : Rat)
    (now : Int) : Bool :=
  if st.lastAlertedSignatureRate = 0
      ∨ currentRate ≤ st.lastAlertedSignatureRate - MIN_RATE_DROP_FOR_ALERT then
    decide (MIN_ALERT_INTERVAL <
      timeSinceOrDefault now st.lastSignatureRateAlertTime)
  else
    false

/-- `checkSignatureRateThreshold` with the default threshold 90 (validator
info assumed present so the recovery reset executes).  Returns the updated
alert state, whether a LOW alert was sent, and whether a RECOVERY alert was
sent. -/
def checkSignatureRateThreshold (st : ValidatorAlertState) (rate : Rat)
    (window : Nat) (now : Int) : ValidatorAlertState × Bool × Bool :=
  if 100 ≤ window ∧ rate < 90 then
    if shouldSendSignatureRateAlert st rate now then
      ((⟨rate, some now, st.lastRecoveryAlertTime, false⟩ :
        ValidatorAlertState), true, false)
    else (st, false, false)
  else if 100 ≤ window ∧ 90 ≤ rate then
    if (st.lastAlertedSignatureRate ≠ 0 ∧ st.lastSignatureRateAlertTime.isSome)
        ∧ (st.isRecovering = false
          ∨ (st.isRecovering = true ∧ MIN_ALERT_INTERVAL <
              timeSinceOrDefault now st.lastRecoveryAlertTime)) then
      ((⟨0, st.lastSignatureRateAlertTime, some now, true⟩ :
        ValidatorAlertState), false, true)
    else (st, false, false)
  else (st, false, false)

/-- Modelled from the spec wording of the claim (for refutation only): send
LOW iff (`lastAlertedRate == 0` OR `rate ≤ lastAlertedRate − DROP_STEP`)
AND at least `MIN_ALERT_INTERVAL` has elapsed since the last rate alert. -/
def specLowAlertCondition (st : ValidatorAlertState) (rate : Rat)
    (now : Int) : Prop :=
  (st.lastAlertedSignatureRate = 0 ∨ rate ≤ st.lastAlertedSignatureRate - 10)
  ∧ MIN_ALERT_INTERVAL ≤ timeSinceOrDefault now st.lastSignatureRateAlertTime

lemma shouldSend_iff (st : ValidatorAlertState) (rate : Rat) (now : Int) :
    shouldSendSignatureRateAlert st rate now = true ↔
      ((st.lastAlertedSignatureRate = 0
          ∨ rate ≤ st.lastAlertedSignatureRate - 10)
        ∧ MIN_ALERT_INTERVAL <
            timeSinceOrDefault now st.lastSignatureRateAlertTime) := by
  unfold shouldSendSignatureRateAlert MIN_RATE_DROP_FOR_ALERT
  split
  case isTrue h => simp [h]
  case isFalse h => simp [h]

lemma checkSRT_low_iff (st : ValidatorAlertState) (rate : Rat) (window : Nat)
    (now : Int) :
    (checkSignatureRateThreshold st rate window now).2.1 = true ↔
      ((100 ≤ window ∧ rate < 90)
        ∧ shouldSendSignatureRateAlert st rate now = true) := by
  unfold checkSignatureRateThreshold
  split_ifs with h1 h2 h3 h4 <;> simp_all

lemma checkSRT_low_state (st : ValidatorAlertState) (rate : Rat) (window : Nat)
    (now : Int)
    (h : (checkSignatureRateThreshold st rate window now).2.1 = true) :
    (checkSignatureRateThreshold st rate window now).1 =
      (⟨rate, some now, st.lastRecoveryAlertTime, false⟩ :
        ValidatorAlertState) := by
  unfold checkSignatureRateThreshold at h ⊢
  split_ifs at h ⊢ with h1 h2 h3 h4
  all_goals simp_all

lemma checkSRT_recovery_state (st : ValidatorAlertState) (rate : Rat)
    (window : Nat) (now : Int)
    (h : (checkSignatureRateThreshold st rate window now).2.2 = true) :
    (checkSignatureRateThreshold st rate window now).1.lastAlertedSignatureRate
      = 0 := by
  unfold checkSignatureRateThreshold at h ⊢
  split_ifs at h ⊢ with h1 h2 h3 h4
  all_goals simp_all

end BabylonMonitoring

namespace BabylonMonitoring

/-- C4 counterexample, along a trace reachable from the fresh alert state:
a LOW alert at rate 50 (time 0), then a RECOVERY at rate 95 (time 1, which
resets `lastAlertedRate` to 0 but keeps the LOW-alert timestamp), then a
drop back to rate 50 at time `MIN_ALERT_INTERVAL` exactly.  The claim's
condition (`lastAlertedRate == 0`, and at least `MIN_ALERT_INTERVAL`
elapsed) holds, but the source sends no LOW alert because its cooldown test
is strict (`>`, not `≥`). -/
theorem C4_counterexample :
    (checkSignatureRateThreshold initAlertState 50 100 0).2.1 = true
    ∧ (checkSignatureRateThreshold
        (checkSignatureRateThreshold initAlertState 50 100 0).1
        95 100 1).2.2 = true
    ∧ specLowAlertCondition
        (checkSignatureRateThreshold
          (checkSignatureRateThreshold initAlertState 50 100 0).1
          95 100 1).1 50 21600000
    ∧ (checkSignatureRateThreshold
        (checkSignatureRateThreshold
          (checkSignatureRateThreshold initAlertState 50 100 0).1
          95 100 1).1 50 100 21600000).2.1 = false := by
  have h1 : checkSignatureRateThreshold initAlertState 50 100 0 =
      ((⟨50, some 0, none, false⟩ : ValidatorAlertState), true, false) := by
    norm_num [checkSignatureRateThreshold, shouldSendSignatureRateAlert,
      timeSinceOrDefault, initAlertState, MIN_ALERT_INTERVAL,
      MIN_RATE_DROP_FOR_ALERT]
  have h2 : checkSignatureRateThreshold
      (⟨50, some 0, none, false⟩ : ValidatorAlertState) 95 100 1 =
      ((⟨0, some 0, some 1, true⟩ : ValidatorAlertState), false, true) := by
    norm_num [checkSignatureRateThreshold, shouldSendSignatureRateAlert,
      timeSinceOrDefault, MIN_ALERT_INTERVAL, MIN_RATE_DROP_FOR_ALERT]
  have h3 : checkSignatureRateThreshold
      (⟨0, some 0, some 1, true⟩ : ValidatorAlertState) 50 100 21600000 =
      ((⟨0, some 0, some 1, true⟩ : ValidatorAlertState), false, false) := by
    norm_num [checkSignatureRateThreshold, shouldSendSignatureRateAlert,
      timeSinceOrDefault, MIN_ALERT_INTERVAL, MIN_RATE_DROP_FOR_ALERT]
  refine ⟨by rw [h1], by rw [h1, h2], ?_, by rw [h1, h2, h3]⟩
  rw [h1, h2]
  norm_num [specLowAlertCondition, timeSinceOrDefault, MIN_ALERT_INTERVAL]

/-- C4 (amended): with the default threshold 90, drop step 10 and 6-hour
interval — for a subject with at least 100 analyzed blocks and rate below
threshold, a LOW alert is sent iff (`lastAlertedRate == 0` OR
`rate ≤ lastAlertedRate − DROP_STEP`) AND strictly more than
`MIN_ALERT_INTERVAL` has elapsed since the last rate alert (never-alerted
counts as elapsed); after a LOW alert at rate r no further LOW alert fires
until the rate drops by `DROP_STEP` or the interval elapses; after a
RECOVERY alert `lastAlertedRate` is reset to 0; and a zero
`lastAlertedRate` re-enables the LOW path once the cooldown has passed. -/
theorem C4_rate_alert_hysteresis (st : ValidatorAlertState)
    (rate rate2 : Rat) (window window2 : Nat) (now now2 : Int) :
    (100 ≤ window → rate < 90 →
      ((checkSignatureRateThreshold st rate window now).2.1 = true ↔
        ((st.lastAlertedSignatureRate = 0
            ∨ rate ≤ st.lastAlertedSignatureRate - 10)
          ∧ MIN_ALERT_INTERVAL <
              timeSinceOrDefault now st.lastSignatureRateAlertTime)))
    ∧ ((checkSignatureRateThreshold st rate window now).2.1 = true →
        (checkSignatureRateThreshold
          (checkSignatureRateThreshold st rate window now).1
          rate2 window2 now2).2.1 = true →
        (rate2 ≤ rate - 10 ∨ MIN_ALERT_INTERVAL < now2 - now))
    ∧ ((checkSignatureRateThreshold st rate window now).2.2 = true →
        (checkSignatureRateThreshold st rate window now).1.lastAlertedSignatureRate
          = 0)
    ∧ (st.lastAlertedSignatureRate = 0 → 100 ≤ window → rate < 90 →
        MIN_ALERT_INTERVAL <
          timeSinceOrDefault now st.lastSignatureRateAlertTime →
        (checkSignatureRateThreshold st rate window now).2.1 = true) := by
  refine ⟨?_, ?_, ?_, ?_⟩
  · intro hw hr
    rw [checkSRT_low_iff, shouldSend_iff]
    simp [hw, hr]
  · intro hlow1 hlow2
    have hst1 := checkSRT_low_state st rate window now hlow1
    have hcond := (checkSRT_low_iff _ rate2 window2 now2).mp hlow2
    have htime := ((shouldSend_iff _ rate2 now2).mp hcond.2).2
    rw [hst1] at htime
    right
    simpa [timeSinceOrDefault] using htime
  · exact checkSRT_recovery_state st rate window now
  · intro h0 hw hr htime
    rw [checkSRT_low_iff, shouldSend_iff]
    exact ⟨⟨hw, hr⟩, Or.inl h0, htime⟩

/-- Witness for `C4_rate_alert_hysteresis`: from the fresh state a rate of
50 over 100 analyzed blocks sends a LOW alert immediately. -/
theorem C4_rate_alert_hysteresis_witness :
    (checkSignatureRateThreshold initAlertState 50 100 0).2.1 = true :=
  (C4_rate_alert_hysteresis initAlertState 50 50 100 100 0 0).2.2.2
    rfl (by norm_num) (by norm_num)
    (by norm_num [timeSinceOrDefault, initAlertState, MIN_ALERT_INTERVAL])

end BabylonMonitoring

namespace BabylonMonitoring

/-! ## Tracking filters
    (src/services/validator-signature/notification-service.ts,
    `isTrackedValidator`, and src/services/bls-signature/notification-service.ts,
    `checkTrackedValidators`) -/

/-- `isTrackedValidator` of the validator-signature notification service:
with an empty tracking set every validator is tracked. -/
def isTrackedValidator (tracked : List String) (validatorAddress : String) :
    Bool :=
  if tracked.length = 0 then true
  else tracked.contains validatorAddress

/-- `NotificationService.checkTrackedValidators` of the BLS service, as the
list of validator addresses for which a missed-BLS-signature alert is sent:
the whole check runs only under
`if (trackedAddresses && trackedAddresses.length > 0)`, and inside it an
alert fires for a tracked, unsigned signature.  (The recovery branch
touches only the per-validator alert state and emits no missed alert; it is
not modelled here.) -/
def checkTrackedValidators (tracked : List String)
    (signatures : List BLSValidatorSignature) : List String :=
  if tracked.isEmpty then []
  else
    (signatures.filter (fun s =>
      (tracked.contains s.validatorAddress
        || tracked.contains s.validatorOperatorAddress)
      && !s.signed)).map (fun s => s.validatorAddress)

/-- Modelled from the spec wording of the claim (for refutation only):
per-validator BLS missed-signature alerts are emitted for all validators
when no tracking list is configured. -/
def claimC8BLSAllEligible : Prop :=
  ∀ (signatures : List BLSValidatorSignature) (s : BLSValidatorSignature),
    s ∈ signatures → s.signed = false →
    s.validatorAddress ∈ checkTrackedValidators [] signatures

/-- C8 counterexample: with an empty tracking list the BLS service's
per-validator check is skipped entirely, so an unsigned validator gets no
missed-signature alert — the "empty list means everyone is eligible" half
of the claim fails for the BLS alert family. -/
theorem C8_counterexample : ¬ claimC8BLSAllEligible := by
  intro h
  have := h [⟨7, "v1", "m1", "op1", 10, false⟩]
    ⟨7, "v1", "m1", "op1", 10, false⟩ (List.mem_singleton.mpr rfl) rfl
  simp [checkTrackedValidators] at this

/-- C8 (amended): the validator-signature alert family treats an empty
tracking list as "all subjects eligible" and a non-empty list as an exact
filter; the BLS missed-signature family emits alerts only when a non-empty
tracking list is configured (an empty list disables the per-validator BLS
check entirely), and every emitted BLS alert is for an unsigned signature
matched by the tracking list. -/
theorem C8_tracking_filter (tracked : List String) (addr a : String)
    (signatures : List BLSValidatorSignature) :
    isTrackedValidator [] addr = true
    ∧ (tracked ≠ [] →
        (isTrackedValidator tracked addr = true ↔ addr ∈ tracked))
    ∧ checkTrackedValidators [] signatures = []
    ∧ (a ∈ checkTrackedValidators tracked signatures →
        ∃ s ∈ signatures, s.validatorAddress = a ∧ s.signed = false
          ∧ (s.validatorAddress ∈ tracked
            ∨ s.validatorOperatorAddress ∈ tracked)) := by
  refine ⟨by simp [isTrackedValidator], ?_, by simp [checkTrackedValidators], ?_⟩
  · intro hne
    unfold isTrackedValidator
    rw [if_neg (by simpa using hne)]
    simp
  · intro ha
    unfold checkTrackedValidators at ha
    by_cases hemp : tracked.isEmpty
    · rw [if_pos hemp] at ha
      cases ha
    · rw [if_neg hemp] at ha
      obtain ⟨s, hs, hsa⟩ := List.mem_map.mp ha
      obtain ⟨hsmem, hcond⟩ := List.mem_filter.mp hs
      simp only [Bool.and_eq_true, Bool.or_eq_true, Bool.not_eq_true'] at hcond
      refine ⟨s, hsmem, hsa, hcond.2, ?_⟩
      rcases hcond.1 with hc | hc
      · exact Or.inl (by simpa using hc)
      · exact Or.inr (by simpa using hc)

/-- Witness for `C8_tracking_filter`: any BLS alert emitted under the
tracking list `["op1"]` on a one-element signature vector is for the
unsigned, tracked signature. -/
theorem C8_tracking_filter_witness :
    isTrackedValidator [] "v9" = true
    ∧ (isTrackedValidator ["a", "b"] "b" = true ↔ "b" ∈ ["a", "b"])
    ∧ ∃ s ∈ [(⟨7, "v1", "m1", "op1", 10, false⟩ : BLSValidatorSignature)],
        s.validatorAddress = "v1" ∧ s.signed = false
          ∧ (s.validatorAddress ∈ ["op1"] ∨ s.validatorOperatorAddress ∈ ["op1"]) :=
  ⟨(C8_tracking_filter [] "v9" "x" []).1,
    (C8_tracking_filter ["a", "b"] "b" "x" []).2.1 (by decide),
    (C8_tracking_filter ["op1"] "x" "v1"
      [⟨7, "v1", "m1", "op1", 10, false⟩]).2.2.2 (by decide)⟩

end BabylonMonitoring
